import Mathlib

/-!
Verification of the geometry-transform and rasterization core of the
portal3d software renderer (src/matrix.c, src/triangle.c).

The C code works on IEEE-754 `float`; the embedding idealizes floating
point as exact rational arithmetic (`ℚ`).  Machine `int` values are
embedded as `ℤ`; the C cast `(int)` of a floating value truncates toward
zero and is embedded as `ratTrunc`.  The frame buffer, depth buffer and
the pixel sinks (`draw_pixel`, `get_zbuffer_at`, `set_zbuffer_at`) are
external collaborators of the core and are embedded as an explicit
render state threaded through the drawing functions, together with an
event trace recording each `draw_pixel` / `set_zbuffer_at` call.
-/

/-- 2D vector of the renderer (`vec2_t`), with exact rational components. -/
structure Vec2 where
  x : ℚ
  y : ℚ
  deriving DecidableEq

/-- 3D vector (`vec3_t`). -/
structure Vec3 where
  x : ℚ
  y : ℚ
  z : ℚ
  deriving DecidableEq

/-- 4D homogeneous vector (`vec4_t`). -/
structure Vec4 where
  x : ℚ
  y : ℚ
  z : ℚ
  w : ℚ
  deriving DecidableEq

/-- Texture coordinate pair (`tex2_t`). -/
structure Tex2 where
  u : ℚ
  v : ℚ
  deriving DecidableEq

/-- Modelled from the spec: `vec2_sub` lives in the repository's vector
utilities, which are not under src/; componentwise difference `p - q`,
matching the spec's `b-a`, `c-a` edge vectors. -/
def vec2_sub (p q : Vec2) : Vec2 := ⟨p.x - q.x, p.y - q.y⟩

/-- Modelled from the spec: `vec2_from_vec4` (vector utilities, not under
src/) keeps the 2D screen position of a projected vertex. -/
def vec2_from_vec4 (p : Vec4) : Vec2 := ⟨p.x, p.y⟩

/-- Modelled from the spec: `vec3_sub` (vector utilities, not under src/). -/
def vec3_sub (p q : Vec3) : Vec3 := ⟨p.x - q.x, p.y - q.y, p.z - q.z⟩

/-- Modelled from the spec: `vec3_cross` (vector utilities, not under
src/), the standard 3D cross product used by the look-at basis build. -/
def vec3_cross (u v : Vec3) : Vec3 :=
  ⟨u.y * v.z - u.z * v.y, u.z * v.x - u.x * v.z, u.x * v.y - u.y * v.x⟩

/-- Modelled from the spec: `vec3_dot` (vector utilities, not under src/). -/
def vec3_dot (u v : Vec3) : ℚ := u.x * v.x + u.y * v.y + u.z * v.z

/-- 4x4 matrix (`mat4_t`), entry `m i j` is row `i`, column `j`. -/
def Mat4 : Type := Fin 4 → Fin 4 → ℚ

/-- A row of four entries, indexed by column. -/
def row4 (a b c d : ℚ) : Fin 4 → ℚ :=
  fun j => if j = 0 then a else if j = 1 then b else if j = 2 then c else d

/-- Build a matrix from its four rows (the C aggregate literal `{{...}}`). -/
def mat4FromRows (r0 r1 r2 r3 : Fin 4 → ℚ) : Mat4 :=
  fun i j => if i = 0 then r0 j else if i = 1 then r1 j else if i = 2 then r2 j else r3 j

/-- One C assignment `matrix.m[i][j] = v` on a matrix value. -/
def matSet (m : Mat4) (i j : Fin 4) (v : ℚ) : Mat4 :=
  fun a b => if a = i ∧ b = j then v else m a b

/-- `mat4_identity` (matrix.c line 7). -/
def mat4_identity : Mat4 :=
  mat4FromRows (row4 1 0 0 0) (row4 0 1 0 0) (row4 0 0 1 0) (row4 0 0 0 1)

/-- `mat4_make_scale` (matrix.c line 20). -/
def mat4_make_scale (sx sy sz : ℚ) : Mat4 :=
  matSet (matSet (matSet mat4_identity 0 0 sx) 1 1 sy) 2 2 sz

/-- `mat4_mul_vec4` (matrix.c line 36). -/
def mat4_mul_vec4 (m : Mat4) (v : Vec4) : Vec4 :=
  ⟨m 0 0 * v.x + m 0 1 * v.y + m 0 2 * v.z + m 0 3 * v.w,
   m 1 0 * v.x + m 1 1 * v.y + m 1 2 * v.z + m 1 3 * v.w,
   m 2 0 * v.x + m 2 1 * v.y + m 2 2 * v.z + m 2 3 * v.w,
   m 3 0 * v.x + m 3 1 * v.y + m 3 2 * v.z + m 3 3 * v.w⟩

/-- `mat4_make_translation` (matrix.c line 53). -/
def mat4_make_translation (tx ty tz : ℚ) : Mat4 :=
  matSet (matSet (matSet mat4_identity 0 3 tx) 1 3 ty) 2 3 tz

/-- `mat4_make_rotation_z` (matrix.c line 87).  The C code computes
`c = cos(angle)` and `s = sin(angle)`; cosine and sine are transcendental,
so the constructor is embedded over those two computed values. -/
def mat4_make_rotation_z (c s : ℚ) : Mat4 :=
  matSet (matSet (matSet (matSet mat4_identity 0 0 c) 0 1 (-s)) 1 0 s) 1 1 c

/-- `mat4_make_rotation_x` (matrix.c line 104), over `c = cos angle`,
`s = sin angle`. -/
def mat4_make_rotation_x (c s : ℚ) : Mat4 :=
  matSet (matSet (matSet (matSet mat4_identity 1 1 c) 1 2 (-s)) 2 1 s) 2 2 c

/-- `mat4_make_rotation_y` (matrix.c line 122), over `c = cos angle`,
`s = sin angle`; note the swapped sign placement of `s`. -/
def mat4_make_rotation_y (c s : ℚ) : Mat4 :=
  matSet (matSet (matSet (matSet mat4_identity 0 0 c) 0 2 s) 2 0 (-s)) 2 2 c

/-- `mat4_mul_mat4` (matrix.c line 145). -/
def mat4_mul_mat4 (a b : Mat4) : Mat4 :=
  fun i j => a i 0 * b 0 j + a i 1 * b 1 j + a i 2 * b 2 j + a i 3 * b 3 j

/-- `mat4_make_perspective` (matrix.c line 162).  The C code evaluates
`tan(fov/2)`, a transcendental value; the constructor is embedded over
that computed value `t`.  The entries are exactly the code's:
`m00 = aspect * (1/t)`, `m11 = 1/t`, `m22 = zfar/(zfar-znear)`,
`m23 = (-zfar*znear)/(zfar-znear)`, `m32 = 1`, starting from the
all-zero aggregate. -/
def mat4_make_perspective (t aspect znear zfar : ℚ) : Mat4 :=
  matSet (matSet (matSet (matSet (matSet (fun _ _ => 0)
    0 0 (aspect * (1 / t)))
    1 1 (1 / t))
    2 2 (zfar / (zfar - znear)))
    2 3 ((-zfar * znear) / (zfar - znear)))
    3 2 1

/-- `mat4_mul_vec4_project` (matrix.c line 185): multiply, then divide
x, y, z by w only when w is non-zero. -/
def mat4_mul_vec4_project (mat_proj : Mat4) (v : Vec4) : Vec4 :=
  let result := mat4_mul_vec4 mat_proj v
  if result.w ≠ 0 then
    ⟨result.x / result.w, result.y / result.w, result.z / result.w, result.w⟩
  else
    result

/-- `mat4_look_at` (matrix.c line 212).  `vec3_normalize` (vector
utilities, not under src/) divides by the Euclidean length, an irrational
square root; it is abstracted as the parameter `nrm`, and only
properties independent of it are proved. -/
def mat4_look_at (nrm : Vec3 → Vec3) (eye target up : Vec3) : Mat4 :=
  let z := nrm (vec3_sub target eye)
  let x := nrm (vec3_cross up z)
  let y := vec3_cross z x
  mat4FromRows
    (row4 x.x x.y x.z (-(vec3_dot x eye)))
    (row4 y.x y.y y.z (-(vec3_dot y eye)))
    (row4 z.x z.y z.z (-(vec3_dot z eye)))
    (row4 0 0 0 1)

/-- C cast of a floating value to `int`: truncation toward zero. -/
def ratTrunc (q : ℚ) : ℤ := if q < 0 then ⌈q⌉ else ⌊q⌋

/-- One recorded call to an external pixel sink. -/
inductive REvent where
  | px (x y : ℤ) (color : ℕ)
  | zb (x y : ℤ) (depth : ℚ)
  deriving DecidableEq

/-- The external frame buffer and depth buffer (display.c collaborators),
plus the trace of sink calls made so far. -/
structure RState where
  zbuf : ℤ → ℤ → ℚ
  frame : ℤ → ℤ → ℕ
  events : List REvent

/-- External sink `draw_pixel(x, y, color)`. -/
def draw_pixel (s : RState) (x y : ℤ) (color : ℕ) : RState :=
  { s with
    frame := fun a b => if a = x ∧ b = y then color else s.frame a b
    events := s.events ++ [REvent.px x y color] }

/-- External source `get_zbuffer_at(x, y)`. -/
def get_zbuffer_at (s : RState) (x y : ℤ) : ℚ := s.zbuf x y

/-- External sink `set_zbuffer_at(x, y, value)`. -/
def set_zbuffer_at (s : RState) (x y : ℤ) (value : ℚ) : RState :=
  { s with
    zbuf := fun a b => if a = x ∧ b = y then value else s.zbuf a b
    events := s.events ++ [REvent.zb x y value] }

/-- External texture (`upng_t`): width, height and the texel buffer
`buffer[width * y + x]`. -/
structure Texture where
  width : ℤ
  height : ℤ
  buf : ℤ → ℕ

/-- `barycentric_weights` (triangle.c line 20). -/
def barycentric_weights (a b c p : Vec2) : Vec3 :=
  let ab := vec2_sub b a
  let bc := vec2_sub c b
  let ac := vec2_sub c a
  let ap := vec2_sub p a
  let bp := vec2_sub p b
  let area_triangle_abc := ab.x * ac.y - ab.y * ac.x
  let alpha := (bc.x * bp.y - bp.x * bc.y) / area_triangle_abc
  let beta := (ap.x * ac.y - ac.x * ap.y) / area_triangle_abc
  let gamma := 1 - alpha - beta
  ⟨alpha, beta, gamma⟩

/-- `draw_triangle_pixel` (triangle.c line 61). -/
def draw_triangle_pixel (x y : ℤ) (color : ℕ) (point_a point_b point_c : Vec4)
    (s : RState) : RState :=
  let p : Vec2 := ⟨(x : ℚ), (y : ℚ)⟩
  let a := vec2_from_vec4 point_a
  let b := vec2_from_vec4 point_b
  let c := vec2_from_vec4 point_c
  let weights := barycentric_weights a b c p
  let alpha := weights.x
  let beta := weights.y
  let gamma := weights.z
  let interpolated_reciprocal_w :=
    1 - ((1 / point_a.w) * alpha + (1 / point_b.w) * beta + (1 / point_c.w) * gamma)
  if interpolated_reciprocal_w < get_zbuffer_at s x y then
    set_zbuffer_at (draw_pixel s x y color) x y interpolated_reciprocal_w
  else
    s

/-- `draw_texel` (triangle.c line 181). -/
def draw_texel (x y : ℤ) (texture : Texture) (point_a point_b point_c : Vec4)
    (a_uv b_uv c_uv : Tex2) (s : RState) : RState :=
  let p : Vec2 := ⟨(x : ℚ), (y : ℚ)⟩
  let a := vec2_from_vec4 point_a
  let b := vec2_from_vec4 point_b
  let c := vec2_from_vec4 point_c
  let weights := barycentric_weights a b c p
  let alpha := weights.x
  let beta := weights.y
  let gamma := weights.z
  let interpolated_u :=
    (a_uv.u / point_a.w) * alpha + (b_uv.u / point_b.w) * beta + (c_uv.u / point_c.w) * gamma
  let interpolated_v :=
    (a_uv.v / point_a.w) * alpha + (b_uv.v / point_b.w) * beta + (c_uv.v / point_c.w) * gamma
  let interpolated_reciprocal_w :=
    (1 / point_a.w) * alpha + (1 / point_b.w) * beta + (1 / point_c.w) * gamma
  let interpolated_u := interpolated_u / interpolated_reciprocal_w
  let interpolated_v := interpolated_v / interpolated_reciprocal_w
  let tex_x := |ratTrunc (interpolated_u * (texture.width : ℚ))| % texture.width
  let tex_y := |ratTrunc (interpolated_v * (texture.height : ℚ))| % texture.height
  let interpolated_reciprocal_w := 1 - interpolated_reciprocal_w
  if interpolated_reciprocal_w < get_zbuffer_at s x y then
    set_zbuffer_at (draw_pixel s x y (texture.buf (texture.width * tex_y + tex_x)))
      x y interpolated_reciprocal_w
  else
    s

/-- The integers `lo, lo+1, ..., lo+n-1`. -/
def intRange (lo : ℤ) (n : ℕ) : List ℤ := (List.range n).map (fun (i : ℕ) => lo + (i : ℤ))

/-- Scanlines of the upper (flat-bottom) part: `for (y = y0; y <= y1; y++)`
guarded by `y1 - y0 != 0`. -/
def upperLines (y0 y1 : ℤ) : List ℤ :=
  if y1 - y0 ≠ 0 then intRange y0 (y1 - y0 + 1).toNat else []

/-- Scanlines of the lower (flat-top) part: `for (y = y1; y <= y2; y++)`
guarded by `y2 - y1 != 0`. -/
def lowerLines (y1 y2 : ℤ) : List ℤ :=
  if y2 - y1 ≠ 0 then intRange y1 (y2 - y1 + 1).toNat else []

/-- Upper-part inverse slope 1: `(float)(x1 - x0) / abs(y1 - y0)`,
zero when the edge has zero height. -/
def upperSlope1 (x0 y0 x1 y1 : ℤ) : ℚ :=
  if y1 - y0 ≠ 0 then (x1 - x0 : ℚ) / ((|y1 - y0| : ℤ) : ℚ) else 0

/-- Lower-part inverse slope 1: `(float)(x2 - x1) / abs(y2 - y1)`,
zero when the edge has zero height. -/
def lowerSlope1 (x1 y1 x2 y2 : ℤ) : ℚ :=
  if y2 - y1 ≠ 0 then (x2 - x1 : ℚ) / ((|y2 - y1| : ℤ) : ℚ) else 0

/-- Inverse slope 2, shared by both parts: `(float)(x2 - x0) / abs(y2 - y0)`,
zero when the edge has zero height. -/
def sharedSlope2 (x0 y0 x2 y2 : ℤ) : ℚ :=
  if y2 - y0 ≠ 0 then (x2 - x0 : ℚ) / ((|y2 - y0| : ℤ) : ℚ) else 0

/-- One scanline of either part: `x_start = x1 + (y - y1) * inv_slope_1`,
`x_end = x0 + (y - y0) * inv_slope_2` (both truncated to `int`), swapped
when `x_end < x_start`, pixels for `x_start <= x < x_end`. -/
def scanRow (x0 y0 x1 y1 : ℤ) (s1 s2 : ℚ) (y : ℤ) : List (ℤ × ℤ) :=
  let xs := ratTrunc ((x1 : ℚ) + ((y : ℚ) - (y1 : ℚ)) * s1)
  let xe := ratTrunc ((x0 : ℚ) + ((y : ℚ) - (y0 : ℚ)) * s2)
  let lo := if xe < xs then xe else xs
  let hi := if xe < xs then xs else xe
  (intRange lo (hi - lo).toNat).map (fun x => (x, y))

/-- All pixels visited by the upper (flat-bottom) loop, in order. -/
def upperScan (x0 y0 x1 y1 x2 y2 : ℤ) : List (ℤ × ℤ) :=
  (upperLines y0 y1).flatMap
    (scanRow x0 y0 x1 y1 (upperSlope1 x0 y0 x1 y1) (sharedSlope2 x0 y0 x2 y2))

/-- All pixels visited by the lower (flat-top) loop, in order. -/
def lowerScan (x0 y0 x1 y1 x2 y2 : ℤ) : List (ℤ × ℤ) :=
  (lowerLines y1 y2).flatMap
    (scanRow x0 y0 x1 y1 (lowerSlope1 x1 y1 x2 y2) (sharedSlope2 x0 y0 x2 y2))

/-- Vertex of `draw_filled_triangle`: the attributes moved as a unit by
each `int_swap`/`float_swap` group. -/
structure FVert where
  x : ℤ
  y : ℤ
  z : ℚ
  w : ℚ

/-- Vertex of `draw_textured_triangle`, with texture coordinates. -/
structure TVert where
  x : ℤ
  y : ℤ
  z : ℚ
  w : ℚ
  u : ℚ
  v : ℚ

/-- One conditional compare-and-swap `if (ya > yb) swap` on whole vertices. -/
def sort2 {α : Type} (yOf : α → ℤ) (a b : α) : α × α :=
  if yOf a > yOf b then (b, a) else (a, b)

/-- The three compare-and-swaps sorting the vertices by ascending y. -/
def sortVerts3 {α : Type} (yOf : α → ℤ) (v0 v1 v2 : α) : α × α × α :=
  let p := sort2 yOf v0 v1
  let q := sort2 yOf p.2 v2
  let r := sort2 yOf p.1 q.1
  (r.1, r.2, q.2)

/-- The scanline loops of `draw_filled_triangle` after sorting: fold
`draw_triangle_pixel` over the upper then the lower scan. -/
def fillSorted (a b c : FVert) (color : ℕ) (s : RState) : RState :=
  let point_a : Vec4 := ⟨(a.x : ℚ), (a.y : ℚ), a.z, a.w⟩
  let point_b : Vec4 := ⟨(b.x : ℚ), (b.y : ℚ), b.z, b.w⟩
  let point_c : Vec4 := ⟨(c.x : ℚ), (c.y : ℚ), c.z, c.w⟩
  (upperScan a.x a.y b.x b.y c.x c.y ++ lowerScan a.x a.y b.x b.y c.x c.y).foldl
    (fun st q => draw_triangle_pixel q.1 q.2 color point_a point_b point_c st) s

/-- `draw_filled_triangle` (triangle.c line 95). -/
def draw_filled_triangle (x0 y0 : ℤ) (z0 w0 : ℚ) (x1 y1 : ℤ) (z1 w1 : ℚ)
    (x2 y2 : ℤ) (z2 w2 : ℚ) (color : ℕ) (s : RState) : RState :=
  let t := sortVerts3 FVert.y ⟨x0, y0, z0, w0⟩ ⟨x1, y1, z1, w1⟩ ⟨x2, y2, z2, w2⟩
  fillSorted t.1 t.2.1 t.2.2 color s

/-- The v-flip `v = 1.0 - v` applied after sorting. -/
def vflip (a : TVert) : TVert := { a with v := 1 - a.v }

/-- The scanline loops of `draw_textured_triangle` after sorting and
v-flip: fold `draw_texel` over the upper then the lower scan. -/
def texSorted (a b c : TVert) (texture : Texture) (s : RState) : RState :=
  let point_a : Vec4 := ⟨(a.x : ℚ), (a.y : ℚ), a.z, a.w⟩
  let point_b : Vec4 := ⟨(b.x : ℚ), (b.y : ℚ), b.z, b.w⟩
  let point_c : Vec4 := ⟨(c.x : ℚ), (c.y : ℚ), c.z, c.w⟩
  let a_uv : Tex2 := ⟨a.u, a.v⟩
  let b_uv : Tex2 := ⟨b.u, b.v⟩
  let c_uv : Tex2 := ⟨c.u, c.v⟩
  (upperScan a.x a.y b.x b.y c.x c.y ++ lowerScan a.x a.y b.x b.y c.x c.y).foldl
    (fun st q => draw_texel q.1 q.2 texture point_a point_b point_c a_uv b_uv c_uv st) s

/-- `draw_textured_triangle` (triangle.c line 246). -/
def draw_textured_triangle (x0 y0 : ℤ) (z0 w0 u0 v0 : ℚ) (x1 y1 : ℤ) (z1 w1 u1 v1 : ℚ)
    (x2 y2 : ℤ) (z2 w2 u2 v2 : ℚ) (texture : Texture) (s : RState) : RState :=
  let t := sortVerts3 TVert.y ⟨x0, y0, z0, w0, u0, v0⟩ ⟨x1, y1, z1, w1, u1, v1⟩
    ⟨x2, y2, z2, w2, u2, v2⟩
  texSorted (vflip t.1) (vflip t.2.1) (vflip t.2.2) texture s

/-- The spec's 2D cross product convention, fixed by its `area_abc`
formula: `cross(u, v) = u.x * v.y - u.y * v.x`. -/
def vec2_cross (u v : Vec2) : ℚ := u.x * v.y - u.y * v.x

/-- Barycentric weights exactly as the spec's sentence words them:
`area_abc = cross(b-a, c-a)`, `alpha = cross(c-b, p-b) / area_abc`,
`beta = cross(c-a, p-a) / area_abc`, `gamma = 1 - alpha - beta`. -/
def barycentricSpec (a b c p : Vec2) : Vec3 :=
  let area_abc := vec2_cross (vec2_sub b a) (vec2_sub c a)
  let alpha := vec2_cross (vec2_sub c b) (vec2_sub p b) / area_abc
  let beta := vec2_cross (vec2_sub c a) (vec2_sub p a) / area_abc
  ⟨alpha, beta, 1 - alpha - beta⟩

/-- C4: the perspective matrix carries exactly the spec's entries (over the
computed value `t = tan(fov_y/2)`): `aspect/t` at (0,0), `1/t` at (1,1),
`zfar/(zfar-znear)` at (2,2), `-zfar*znear/(zfar-znear)` at (2,3), `1` at
(3,2), and zero everywhere else. -/
theorem perspective_entries (t aspect znear zfar : ℚ) (i j : Fin 4) :
    mat4_make_perspective t aspect znear zfar i j =
      if i = 0 ∧ j = 0 then aspect / t
      else if i = 1 ∧ j = 1 then 1 / t
      else if i = 2 ∧ j = 2 then zfar / (zfar - znear)
      else if i = 2 ∧ j = 3 then -zfar * znear / (zfar - znear)
      else if i = 3 ∧ j = 2 then 1
      else 0 := by
  fin_cases i <;> fin_cases j <;>
    (simp [mat4_make_perspective, matSet]; try ring)

/-- C5: `mat4_mul_vec4_project` first multiplies, then if the resulting
`w` is non-zero divides x, y, z by it leaving `w` unchanged, and if `w`
is exactly zero returns the raw product unchanged. -/
theorem project_divides_iff_w_nonzero (P : Mat4) (v : Vec4) :
    ((mat4_mul_vec4 P v).w ≠ 0 →
      mat4_mul_vec4_project P v =
        ⟨(mat4_mul_vec4 P v).x / (mat4_mul_vec4 P v).w,
         (mat4_mul_vec4 P v).y / (mat4_mul_vec4 P v).w,
         (mat4_mul_vec4 P v).z / (mat4_mul_vec4 P v).w,
         (mat4_mul_vec4 P v).w⟩) ∧
    ((mat4_mul_vec4 P v).w = 0 →
      mat4_mul_vec4_project P v = mat4_mul_vec4 P v) := by
  constructor <;> intro h <;> simp [mat4_mul_vec4_project, h]

/-- Witness for C5 at the identity matrix and `v = (2, 4, 6, 2)`: the
product's `w` is `2 ≠ 0` and the projected vector is `(1, 2, 3, 2)`. -/
theorem project_divides_iff_w_nonzero_witness :
    mat4_mul_vec4_project mat4_identity ⟨2, 4, 6, 2⟩ = ⟨1, 2, 3, 2⟩ :=
  ((project_divides_iff_w_nonzero mat4_identity ⟨2, 4, 6, 2⟩).1
      (by simp [mat4_mul_vec4, mat4_identity, mat4FromRows, row4])).trans
    (by simp [mat4_mul_vec4, mat4_identity, mat4FromRows, row4]; norm_num)

/-- C7: every affine constructor (identity, scale, translation, the three
rotations, look-at) has bottom row exactly `[0,0,0,1]`, for all argument
values, while the perspective constructor has bottom row `[0,0,1,0]`. -/
theorem bottom_row_affine_vs_perspective (sx sy sz tx ty tz c s t aspect
    znear zfar : ℚ) (nrm : Vec3 → Vec3) (eye target up : Vec3) (j : Fin 4) :
    mat4_identity 3 j = (if j = 3 then 1 else 0) ∧
    mat4_make_scale sx sy sz 3 j = (if j = 3 then 1 else 0) ∧
    mat4_make_translation tx ty tz 3 j = (if j = 3 then 1 else 0) ∧
    mat4_make_rotation_x c s 3 j = (if j = 3 then 1 else 0) ∧
    mat4_make_rotation_y c s 3 j = (if j = 3 then 1 else 0) ∧
    mat4_make_rotation_z c s 3 j = (if j = 3 then 1 else 0) ∧
    mat4_look_at nrm eye target up 3 j = (if j = 3 then 1 else 0) ∧
    mat4_make_perspective t aspect znear zfar 3 j = (if j = 2 then 1 else 0) := by
  fin_cases j <;>
    simp [mat4_identity, mat4_make_scale, mat4_make_translation,
      mat4_make_rotation_x, mat4_make_rotation_y, mat4_make_rotation_z,
      mat4_look_at, mat4_make_perspective, matSet, mat4FromRows, row4]

/-- C8: the identity matrix is neutral: `mat4_mul_vec4 id v = v` exactly,
and `mat4_mul_mat4 A id = A = mat4_mul_mat4 id A` for every matrix `A`. -/
theorem identity_neutral (v : Vec4) (A : Mat4) :
    mat4_mul_vec4 mat4_identity v = v ∧
    mat4_mul_mat4 A mat4_identity = A ∧
    mat4_mul_mat4 mat4_identity A = A := by
  refine ⟨?_, funext fun i => funext fun j => ?_, funext fun i => funext fun j => ?_⟩
  · simp [mat4_mul_vec4, mat4_identity, mat4FromRows, row4]
  · fin_cases j <;>
      simp [mat4_mul_mat4, mat4_identity, mat4FromRows, row4]
  · fin_cases i <;>
      simp [mat4_mul_mat4, mat4_identity, mat4FromRows, row4]

/-- C1 counterexample: at the triangle `a=(0,0)`, `b=(1,0)`, `c=(0,1)`
with query point `p = b`, the code's weights are `(0, 1, 0)` but the
spec's formulas give beta `cross(c-a, p-a)/area = -1`, so
`barycentric_weights` does not return the spec's formulas. -/
theorem barycentric_differs_from_spec_formula :
    barycentric_weights ⟨0, 0⟩ ⟨1, 0⟩ ⟨0, 1⟩ ⟨1, 0⟩ ≠
      barycentricSpec ⟨0, 0⟩ ⟨1, 0⟩ ⟨0, 1⟩ ⟨1, 0⟩ := by
  simp [barycentric_weights, barycentricSpec, vec2_sub, vec2_cross, Vec3.mk.injEq]
  norm_num

/-- C1 amended: `barycentric_weights(a,b,c,p)` returns exactly
`area_abc = cross(b-a, c-a)`, `alpha = cross(c-b, p-b) / area_abc`,
`beta = cross(p-a, c-a) / area_abc` (the cross arguments in this order,
the negation of the spec's `cross(c-a, p-a)`), and
`gamma = 1 - alpha - beta`, with `cross(u,v) = u.x*v.y - u.y*v.x`. -/
theorem barycentric_weights_formula (a b c p : Vec2) :
    barycentric_weights a b c p =
      ⟨vec2_cross (vec2_sub c b) (vec2_sub p b) /
         vec2_cross (vec2_sub b a) (vec2_sub c a),
       vec2_cross (vec2_sub p a) (vec2_sub c a) /
         vec2_cross (vec2_sub b a) (vec2_sub c a),
       1 - vec2_cross (vec2_sub c b) (vec2_sub p b) /
         vec2_cross (vec2_sub b a) (vec2_sub c a)
         - vec2_cross (vec2_sub p a) (vec2_sub c a) /
         vec2_cross (vec2_sub b a) (vec2_sub c a)⟩ := by
  simp only [barycentric_weights, vec2_sub, vec2_cross, Vec3.mk.injEq]
  refine ⟨by ring_nf, by ring_nf, by ring_nf⟩

/-- The spec's depth metric: `1.0` minus the barycentric-interpolated
`1/w` at pixel `(x, y)`. -/
def depthMetric (point_a point_b point_c : Vec4) (x y : ℤ) : ℚ :=
  let weights := barycentric_weights (vec2_from_vec4 point_a) (vec2_from_vec4 point_b)
    (vec2_from_vec4 point_c) ⟨(x : ℚ), (y : ℚ)⟩
  1 - ((1 / point_a.w) * weights.x + (1 / point_b.w) * weights.y +
    (1 / point_c.w) * weights.z)

/-- The spec's perspective-correct interpolation of a vertex attribute
(`qa`, `qb`, `qc` at the three vertices): interpolate `attribute/w` with
the barycentric weights, then divide by the interpolated `1/w`. -/
def interpAttr (qa qb qc : ℚ) (point_a point_b point_c : Vec4) (x y : ℤ) : ℚ :=
  let weights := barycentric_weights (vec2_from_vec4 point_a) (vec2_from_vec4 point_b)
    (vec2_from_vec4 point_c) ⟨(x : ℚ), (y : ℚ)⟩
  ((qa / point_a.w) * weights.x + (qb / point_b.w) * weights.y +
      (qc / point_c.w) * weights.z) /
    ((1 / point_a.w) * weights.x + (1 / point_b.w) * weights.y +
      (1 / point_c.w) * weights.z)

/-- The texel `draw_texel` reads: wrapped coordinates from the
perspective-correct `u`, `v`, fetched as `buffer[width * tex_y + tex_x]`. -/
def texelFetch (texture : Texture) (point_a point_b point_c : Vec4)
    (a_uv b_uv c_uv : Tex2) (x y : ℤ) : ℕ :=
  texture.buf (texture.width *
      (|ratTrunc (interpAttr a_uv.v b_uv.v c_uv.v point_a point_b point_c x y *
        (texture.height : ℚ))| % texture.height) +
    |ratTrunc (interpAttr a_uv.u b_uv.u c_uv.u point_a point_b point_c x y *
      (texture.width : ℚ))| % texture.width)

/-- C2: in both per-pixel paths the depth metric is `1 - interpolated 1/w`;
the pixel is drawn (`draw_pixel`) and the z-buffer written
(`set_zbuffer_at` with that metric) exactly when the metric is strictly
below the stored `get_zbuffer_at` value, and otherwise the state — frame
buffer, z-buffer and call trace alike — is left untouched. -/
theorem depth_test_governs_writes (x y : ℤ) (color : ℕ) (texture : Texture)
    (point_a point_b point_c : Vec4) (a_uv b_uv c_uv : Tex2) (s : RState) :
    (depthMetric point_a point_b point_c x y < get_zbuffer_at s x y →
      draw_triangle_pixel x y color point_a point_b point_c s =
        set_zbuffer_at (draw_pixel s x y color) x y
          (depthMetric point_a point_b point_c x y) ∧
      draw_texel x y texture point_a point_b point_c a_uv b_uv c_uv s =
        set_zbuffer_at
          (draw_pixel s x y (texelFetch texture point_a point_b point_c a_uv b_uv c_uv x y))
          x y (depthMetric point_a point_b point_c x y)) ∧
    (¬ depthMetric point_a point_b point_c x y < get_zbuffer_at s x y →
      draw_triangle_pixel x y color point_a point_b point_c s = s ∧
      draw_texel x y texture point_a point_b point_c a_uv b_uv c_uv s = s) := by
  constructor <;> intro h <;>
    refine ⟨?_, ?_⟩ <;>
      simp only [draw_triangle_pixel, draw_texel, depthMetric, texelFetch,
        interpAttr, get_zbuffer_at] at h ⊢ <;>
      first
        | rw [if_pos h]
        | rw [if_neg h]

/-- The initial render state the spec requires: depth buffer cleared
to `1.0`, blank frame, empty trace. -/
def clearState : RState := ⟨fun _ _ => 1, fun _ _ => 0, []⟩

/-- Concrete 4x4 texture whose texel at index `i` has color `i`. -/
def tex4 : Texture := ⟨4, 4, fun i => i.toNat⟩

/-- Witness for C2 at pixel (1,1) of the triangle (0,0) (4,0) (0,4) with
unit w: the depth metric is below the cleared buffer value, so the pixel
is drawn and the z-buffer written. -/
theorem depth_test_governs_writes_witness :
    draw_triangle_pixel 1 1 5 ⟨0, 0, 0, 1⟩ ⟨4, 0, 0, 1⟩ ⟨0, 4, 0, 1⟩ clearState =
      set_zbuffer_at (draw_pixel clearState 1 1 5) 1 1
        (depthMetric ⟨0, 0, 0, 1⟩ ⟨4, 0, 0, 1⟩ ⟨0, 4, 0, 1⟩ 1 1) :=
  ((depth_test_governs_writes 1 1 5 tex4 ⟨0, 0, 0, 1⟩ ⟨4, 0, 0, 1⟩ ⟨0, 4, 0, 1⟩
      ⟨0, 0⟩ ⟨0, 0⟩ ⟨0, 0⟩ clearState).1
    (by
      simp [depthMetric, barycentric_weights, vec2_sub, vec2_from_vec4,
        get_zbuffer_at, clearState])).1

/-- The texel-coordinate formula as the spec's sentence words it:
`|floor(u * n)| mod n`. -/
def wrapFloorSpec (u : ℚ) (n : ℤ) : ℤ := |⌊u * (n : ℚ)⌋| % n

/-- C3 counterexample: at pixel (1,1) of the triangle (0,0) (4,0) (0,4)
with unit w and all vertex u set to -3/8, the interpolated u is -3/8, so
`u * texture_width = -3/2`; the code truncates toward zero and writes
texel column `|-1| mod 4 = 1`, while the spec's floor formula names
column `|-2| mod 4 = 2`. -/
theorem texel_wrap_differs_from_floor_spec :
    (draw_texel 1 1 tex4 ⟨0, 0, 0, 1⟩ ⟨4, 0, 0, 1⟩ ⟨0, 4, 0, 1⟩
        ⟨-(3/8), 0⟩ ⟨-(3/8), 0⟩ ⟨-(3/8), 0⟩ clearState).frame 1 1 ≠
      tex4.buf (tex4.width *
          (wrapFloorSpec (interpAttr 0 0 0 ⟨0, 0, 0, 1⟩ ⟨4, 0, 0, 1⟩ ⟨0, 4, 0, 1⟩ 1 1)
            tex4.height) +
        wrapFloorSpec
          (interpAttr (-(3/8)) (-(3/8)) (-(3/8)) ⟨0, 0, 0, 1⟩ ⟨4, 0, 0, 1⟩ ⟨0, 4, 0, 1⟩ 1 1)
          tex4.width) := by
  simp [draw_texel, interpAttr, wrapFloorSpec, barycentric_weights, vec2_sub,
    vec2_from_vec4, tex4, clearState, draw_pixel, set_zbuffer_at, get_zbuffer_at,
    ratTrunc]
  norm_num
  rw [show (⌈(-(3 / 2) : ℚ)⌉ : ℤ) = -1 from Int.ceil_eq_iff.mpr (by norm_num)]
  decide

/-- C3 amended: `draw_texel` computes the texel coordinates from the
perspective-correct `u`, `v` as
`tex_x = |trunc(u * texture_width)| mod texture_width` and
`tex_y = |trunc(v * texture_height)| mod texture_height`, where `trunc`
is the C `(int)` cast truncating toward zero — identical to the spec's
floor formula for non-negative products but not for negative fractional
ones — and wraps, not clamps. -/
theorem texel_coords_truncate_and_wrap (x y : ℤ) (texture : Texture)
    (point_a point_b point_c : Vec4) (a_uv b_uv c_uv : Tex2) (s : RState) :
    draw_texel x y texture point_a point_b point_c a_uv b_uv c_uv s =
      if depthMetric point_a point_b point_c x y < get_zbuffer_at s x y then
        set_zbuffer_at
          (draw_pixel s x y (texture.buf (texture.width *
              (|ratTrunc (interpAttr a_uv.v b_uv.v c_uv.v point_a point_b point_c x y *
                (texture.height : ℚ))| % texture.height) +
            |ratTrunc (interpAttr a_uv.u b_uv.u c_uv.u point_a point_b point_c x y *
              (texture.width : ℚ))| % texture.width)))
          x y (depthMetric point_a point_b point_c x y)
      else s := by
  simp only [draw_texel, depthMetric, interpAttr, get_zbuffer_at]

/-- C6: a zero-height triangle (all three vertices on one scanline) makes
both drawing functions return the state untouched: both scan loops are
guarded by a non-zero edge height, so no `draw_pixel` or `set_zbuffer_at`
call happens and the guarded inverse slopes stay zero. -/
theorem zero_height_triangle_draws_nothing (x0 x1 x2 y : ℤ)
    (z0 w0 z1 w1 z2 w2 u0 v0 u1 v1 u2 v2 : ℚ) (color : ℕ)
    (texture : Texture) (s : RState) :
    draw_filled_triangle x0 y z0 w0 x1 y z1 w1 x2 y z2 w2 color s = s ∧
    draw_textured_triangle x0 y z0 w0 u0 v0 x1 y z1 w1 u1 v1 x2 y z2 w2 u2 v2
      texture s = s := by
  constructor <;>
    simp [draw_filled_triangle, draw_textured_triangle, sortVerts3, sort2,
      fillSorted, texSorted, upperScan, lowerScan, upperLines, lowerLines, vflip]

/-- Folding two pointwise-equal step functions gives the same result. -/
theorem foldl_congr_fun {α β : Type} (f g : β → α → β) (h : ∀ b a, f b a = g b a) :
    ∀ (l : List α) (b : β), l.foldl f b = l.foldl g b := by
  intro l
  induction l with
  | nil => intro b; rfl
  | cons hd tl ih => intro b; rw [List.foldl_cons, List.foldl_cons, h, ih]

/-- `draw_triangle_pixel` never reads the `z` components of its points. -/
theorem draw_triangle_pixel_ignores_z (x y : ℤ) (color : ℕ)
    (ax ay az az' aw bx byy bz bz' bw cx cy cz cz' cw : ℚ) (s : RState) :
    draw_triangle_pixel x y color ⟨ax, ay, az, aw⟩ ⟨bx, byy, bz, bw⟩
        ⟨cx, cy, cz, cw⟩ s =
      draw_triangle_pixel x y color ⟨ax, ay, az', aw⟩ ⟨bx, byy, bz', bw⟩
        ⟨cx, cy, cz', cw⟩ s := by
  simp only [draw_triangle_pixel, vec2_from_vec4]

/-- `draw_texel` never reads the `z` components of its points. -/
theorem draw_texel_ignores_z (x y : ℤ) (texture : Texture)
    (ax ay az az' aw bx byy bz bz' bw cx cy cz cz' cw : ℚ)
    (a_uv b_uv c_uv : Tex2) (s : RState) :
    draw_texel x y texture ⟨ax, ay, az, aw⟩ ⟨bx, byy, bz, bw⟩ ⟨cx, cy, cz, cw⟩
        a_uv b_uv c_uv s =
      draw_texel x y texture ⟨ax, ay, az', aw⟩ ⟨bx, byy, bz', bw⟩
        ⟨cx, cy, cz', cw⟩ a_uv b_uv c_uv s := by
  simp only [draw_texel, vec2_from_vec4]

/-- The filled scan loops ignore the `z` attribute of the sorted vertices. -/
theorem fillSorted_ignores_z (ax ay bx byy cx cy : ℤ)
    (az az' aw bz bz' bw cz cz' cw : ℚ) (color : ℕ) (s : RState) :
    fillSorted ⟨ax, ay, az, aw⟩ ⟨bx, byy, bz, bw⟩ ⟨cx, cy, cz, cw⟩ color s =
      fillSorted ⟨ax, ay, az', aw⟩ ⟨bx, byy, bz', bw⟩ ⟨cx, cy, cz', cw⟩ color s := by
  simp only [fillSorted]
  apply foldl_congr_fun
  intro st q
  exact draw_triangle_pixel_ignores_z q.1 q.2 color
    (ax : ℚ) (ay : ℚ) az az' aw (bx : ℚ) (byy : ℚ) bz bz' bw
    (cx : ℚ) (cy : ℚ) cz cz' cw st

/-- The textured scan loops ignore the `z` attribute of the sorted vertices. -/
theorem texSorted_ignores_z (ax ay bx byy cx cy : ℤ)
    (az az' aw au av bz bz' bw bu bv cz cz' cw cu cv : ℚ)
    (texture : Texture) (s : RState) :
    texSorted ⟨ax, ay, az, aw, au, av⟩ ⟨bx, byy, bz, bw, bu, bv⟩
        ⟨cx, cy, cz, cw, cu, cv⟩ texture s =
      texSorted ⟨ax, ay, az', aw, au, av⟩ ⟨bx, byy, bz', bw, bu, bv⟩
        ⟨cx, cy, cz', cw, cu, cv⟩ texture s := by
  simp only [texSorted]
  apply foldl_congr_fun
  intro st q
  exact draw_texel_ignores_z q.1 q.2 texture
    (ax : ℚ) (ay : ℚ) az az' aw (bx : ℚ) (byy : ℚ) bz bz' bw
    (cx : ℚ) (cy : ℚ) cz cz' cw ⟨au, av⟩ ⟨bu, bv⟩ ⟨cu, cv⟩ st

/-- C9: the rasterizer's behavior — every `draw_pixel` and
`set_zbuffer_at` call and the final buffers — does not depend on the
vertices' `z` components, in either the flat or the textured path. -/
theorem rasterizer_ignores_z (x0 y0 x1 y1 x2 y2 : ℤ)
    (z0 z1 z2 z0' z1' z2' w0 w1 w2 u0 v0 u1 v1 u2 v2 : ℚ) (color : ℕ)
    (texture : Texture) (s : RState) :
    draw_filled_triangle x0 y0 z0 w0 x1 y1 z1 w1 x2 y2 z2 w2 color s =
      draw_filled_triangle x0 y0 z0' w0 x1 y1 z1' w1 x2 y2 z2' w2 color s ∧
    draw_textured_triangle x0 y0 z0 w0 u0 v0 x1 y1 z1 w1 u1 v1
        x2 y2 z2 w2 u2 v2 texture s =
      draw_textured_triangle x0 y0 z0' w0 u0 v0 x1 y1 z1' w1 u1 v1
        x2 y2 z2' w2 u2 v2 texture s := by
  constructor
  · simp only [draw_filled_triangle, sortVerts3, sort2]
    dsimp only
    split_ifs <;> apply fillSorted_ignores_z
  · simp only [draw_textured_triangle, sortVerts3, sort2, vflip]
    dsimp only
    split_ifs <;> apply texSorted_ignores_z

/-- Membership in `intRange`. -/
theorem mem_intRange (lo : ℤ) (n : ℕ) (y : ℤ) :
    y ∈ intRange lo n ↔ lo ≤ y ∧ y < lo + n := by
  unfold intRange
  rw [List.mem_map]
  constructor
  · rintro ⟨i, hi, rfl⟩
    rw [List.mem_range] at hi
    omega
  · rintro ⟨ha, hb⟩
    exact ⟨(y - lo).toNat, List.mem_range.mpr (by omega), by omega⟩

/-- Every pixel a scanline row emits lies on that row. -/
theorem scanRow_mem_snd {x0 y0 x1 y1 : ℤ} {s1 s2 : ℚ} {y : ℤ} {p : ℤ × ℤ}
    (h : p ∈ scanRow x0 y0 x1 y1 s1 s2 y) : p.2 = y := by
  simp only [scanRow, List.mem_map] at h
  obtain ⟨a, _, rfl⟩ := h
  rfl

/-- A pixel `(x, yq)` is in a flat-mapped scan exactly when its own row
`yq` is one of the scanned lines and the row emits it. -/
theorem mem_scan_iff (lines : List ℤ) (x0 y0 x1 y1 : ℤ) (s1 s2 : ℚ) (x yq : ℤ) :
    (x, yq) ∈ lines.flatMap (scanRow x0 y0 x1 y1 s1 s2) ↔
      yq ∈ lines ∧ (x, yq) ∈ scanRow x0 y0 x1 y1 s1 s2 yq := by
  simp only [List.mem_flatMap]
  constructor
  · rintro ⟨y, hy, hmem⟩
    have h2 : yq = y := scanRow_mem_snd hmem
    subst h2
    exact ⟨hy, hmem⟩
  · rintro ⟨hy, hmem⟩
    exact ⟨yq, hy, hmem⟩

/-- C10: with the sorted vertices at strictly increasing scanlines
`y0 < y1 < y2`, the upper loop (shared by `draw_filled_triangle` and
`draw_textured_triangle`) visits exactly the integer scanlines
`y0 ≤ y ≤ y1`, the lower loop exactly `y1 ≤ y ≤ y2`, the two loops
compute the identical pixel row at the middle scanline `y1`, and hence
every pixel of that row is visited by both loops. -/
theorem middle_scanline_processed_twice (x0 y0 x1 y1 x2 y2 : ℤ)
    (h01 : y0 < y1) (h12 : y1 < y2) :
    (∀ y : ℤ, y ∈ upperLines y0 y1 ↔ y0 ≤ y ∧ y ≤ y1) ∧
    (∀ y : ℤ, y ∈ lowerLines y1 y2 ↔ y1 ≤ y ∧ y ≤ y2) ∧
    scanRow x0 y0 x1 y1 (upperSlope1 x0 y0 x1 y1) (sharedSlope2 x0 y0 x2 y2) y1 =
      scanRow x0 y0 x1 y1 (lowerSlope1 x1 y1 x2 y2) (sharedSlope2 x0 y0 x2 y2) y1 ∧
    (∀ x : ℤ, (x, y1) ∈ upperScan x0 y0 x1 y1 x2 y2 ↔
      (x, y1) ∈ lowerScan x0 y0 x1 y1 x2 y2) := by
  have hu : y1 - y0 ≠ 0 := by omega
  have hl : y2 - y1 ≠ 0 := by omega
  have hrow : scanRow x0 y0 x1 y1 (upperSlope1 x0 y0 x1 y1)
      (sharedSlope2 x0 y0 x2 y2) y1 =
      scanRow x0 y0 x1 y1 (lowerSlope1 x1 y1 x2 y2) (sharedSlope2 x0 y0 x2 y2) y1 := by
    simp [scanRow]
  refine ⟨?_, ?_, hrow, ?_⟩
  · intro y
    rw [upperLines, if_pos hu, mem_intRange]
    omega
  · intro y
    rw [lowerLines, if_pos hl, mem_intRange]
    omega
  · intro x
    rw [upperScan, lowerScan, mem_scan_iff, mem_scan_iff, hrow]
    have hmu : y1 ∈ upperLines y0 y1 := by
      rw [upperLines, if_pos hu, mem_intRange]
      omega
    have hml : y1 ∈ lowerLines y1 y2 := by
      rw [lowerLines, if_pos hl, mem_intRange]
      omega
    simp [hmu, hml]

/-- Witness for C10 at the triangle (0,0) (2,1) (0,3): the hypotheses
`0 < 1 < 3` hold, the middle scanline `y = 1` lies in both loops' ranges,
and membership of a middle-scanline pixel in the two scans agrees. -/
theorem middle_scanline_processed_twice_witness :
    (0 : ℤ) < 1 ∧ (1 : ℤ) < 3 ∧
      (1 : ℤ) ∈ upperLines 0 1 ∧ (1 : ℤ) ∈ lowerLines 1 3 ∧
      (((5 : ℤ), (1 : ℤ)) ∈ upperScan 0 0 2 1 0 3 ↔
        ((5 : ℤ), (1 : ℤ)) ∈ lowerScan 0 0 2 1 0 3) := by
  have h := middle_scanline_processed_twice 0 0 2 1 0 3 (by norm_num) (by norm_num)
  exact ⟨by norm_num, by norm_num, (h.1 1).mpr (by norm_num),
    (h.2.1 1).mpr (by norm_num), h.2.2.2 5⟩
